import Mathlib

/-!
# Verification of the roulette-box page core
  (src/src/pages/v1/scratch/[id].tsx)

Shallow embedding of the Outcome Reconciliation & Spin Scheduler core of the
roulette mini-game page: the prize-catalog expander (`generateRouletteItems`),
the outcome reconciler (the winner `find` / loser common-cell pick inside
`handleOpenBox`), and the spin scheduler (`startRouletteSpin`, the 4000 ms
reveal timeout, `handlePlayAgain`), together with the four-state lifecycle
`idle → loading → spinning → completed`.

Modelling conventions for the JavaScript/TypeScript source:

* A JS string that the code only ever tests for truthiness or runs through
  `parseFloat` is modelled by `JStr`: the empty string (the only falsy
  string), a non-empty string whose `parseFloat` is the rational `q`, or a
  non-empty string whose `parseFloat` is `NaN`.
* A JS number that may be `NaN` is modelled by `JsNum := Option ℚ`, with
  `none` standing for `NaN`.  JS `>=` and `===` on numbers are `jsGe` and
  `jsEqNum`: every comparison with `NaN` is false.
* React `useState` state is gathered in a `Config` record; calling a setter
  is modelled as a functional update of that record.  Crucially, a callback
  (such as the `setTimeout` body in `startRouletteSpin`) closes over the
  *render-time* values of the state variables, not over the evolving store:
  state setters never change a binding an already-created closure captured.
  The reveal timeout is therefore modelled as a `TimerTask` that carries the
  `gameResult` value captured at closure-creation time (`captured`), and
  `timerFire` reads that captured value, exactly as the source's callback
  reads the stale `gameResult` binding.
* The asynchronous `handleOpenBox` (click → `await playGame` → reconcile →
  schedule timer) is modelled as one atomic step: while it is suspended the
  page renders no button wired to a game handler, so no user event can
  interleave.
* External collaborators (fetch of the play endpoint, balance refresh,
  toasts, the confetti-off timer) are modelled as an emitted `Effect` list;
  the network outcome and the two random draws (the shuffle comparator and
  `Math.floor(Math.random() * commonItems.length)`) are injected through a
  `SpinEnv` record.
-/

/-- JS string as observed by this code: only truthiness and `parseFloat`
are ever applied to the value-carrying string fields. `empty` is `""` (the
only falsy string; `parseFloat("") = NaN`), `numeric q` is a non-empty
string with `parseFloat` equal to `q`, `nonNumeric` a non-empty string
whose `parseFloat` is `NaN`. -/
inductive JStr where
  | empty : JStr
  | numeric (q : ℚ) : JStr
  | nonNumeric : JStr
deriving DecidableEq

/-- A JS number that may be `NaN` (`none` = `NaN`). -/
abbrev JsNum := Option ℚ

/-- JS `parseFloat` on a `JStr`. -/
def parseFloatS : JStr → JsNum
  | .empty => none
  | .numeric q => some q
  | .nonNumeric => none

/-- JS `x >= c` where `x` may be `NaN` (then the comparison is false). -/
def jsGe (x : JsNum) (c : ℚ) : Bool :=
  match x with
  | some q => decide (c ≤ q)
  | none => false

/-- JS `===` on numbers: `NaN === y` is false for every `y`. -/
def jsEqNum (x y : JsNum) : Bool :=
  match x, y with
  | some a, some b => decide (a = b)
  | _, _ => false

/-- JS string truthiness: only `""` is falsy. -/
def jsTruthy (s : JStr) : Bool :=
  match s with
  | .empty => false
  | _ => true

/-- Model of `r || '0'` on a nullable string field (`null` and `""` both fall through
to the numeric string `'0'`). -/
def redemptionOr0 : Option JStr → JStr
  | some s => if jsTruthy s then s else .numeric 0
  | none => .numeric 0

/-- Model of `v || r || '0'`: the fallback chain the source applies to
`prize.value || prize.redemption_value || '0'` (also for the result prize in
the reconciler's `find`). -/
def valueChain (v : JStr) (r : Option JStr) : JStr :=
  if jsTruthy v then v else redemptionOr0 r

/-- Rarity tiers. -/
inductive Rarity where
  | common | rare | epic | legendary
deriving DecidableEq

/-- The four lifecycle states of the page. -/
inductive GameState where
  | idle | loading | spinning | completed
deriving DecidableEq

/-- The `Prize` rows of the fetched scratch card (interface `Prize`).  String
fields that are only displayed are kept as Lean `String`s; the fields fed
to truthiness tests / `parseFloat` are `JStr`. -/
structure Prize where
  id : String
  scratchCardId : String
  name : String
  description : String
  type : String
  value : JStr
  product_name : Option String
  redemption_value : Option JStr
  image_url : String
  probability : JStr
  is_active : Bool
  created_at : String
  updated_at : String
deriving DecidableEq

/-- The prize carried by a play result (interface `GamePrize`). -/
structure GamePrize where
  id : String
  name : String
  type : String
  value : JStr
  product_name : Option String
  redemption_value : Option JStr
  image_url : String
deriving DecidableEq

/-- The scratch-card echo inside a play result. -/
structure ScratchCardRef where
  id : String
  name : String
  price : JStr
  image_url : String
deriving DecidableEq

/-- The authoritative play result (interface `GameResult`). -/
structure GameResult where
  isWinner : Bool
  amountWon : JStr
  prize : Option GamePrize
  scratchCard : ScratchCardRef
deriving DecidableEq

/-- One reel cell (interface `RouletteItem`).  The optional `isWinning`
flag is modelled as a `Bool` that starts `false`: the source only ever
tests it for truthiness (absent = `undefined` = falsy) and assigns `true`. -/
structure RouletteItem where
  id : String
  name : String
  image : String
  value : JStr
  type : String
  isWinning : Bool
  rarity : Rarity
deriving DecidableEq

/-- First-occurrence string replacement, as JS `String.replace` with a
string pattern (replaces only the first occurrence). -/
def replaceFirst (s pat rep : String) : String :=
  match s.splitOn pat with
  | [] => s
  | [_] => s
  | x :: xs => x ++ rep ++ String.intercalate pat xs

/-- Model of `fixImageUrl`: rewrite asset host/paths; a falsy (empty) URL maps to
`""`. -/
def fixImageUrl (url : String) : String :=
  if url = "" then ""
  else
    replaceFirst
      (replaceFirst
        (replaceFirst url "raspa.ae" "api.raspapixoficial.com")
        "/uploads/scratchcards/" "/uploads/")
      "/uploads/prizes/" "/uploads/"

/-- Model of `getRarityFromValue`: thresholds 1000 / 100 / 10, closed lower bounds;
the argument is a JS number, so `NaN` (from an unparseable string) fails
every comparison and yields `common`. -/
def getRarityFromValue (value : JsNum) : Rarity :=
  if jsGe value 1000 then .legendary
  else if jsGe value 100 then .epic
  else if jsGe value 10 then .rare
  else .common

/-- The `switch (rarity)` repetition table inside `generateRouletteItems`. -/
def repetitionsFor : Rarity → Nat
  | .common => 8
  | .rare => 4
  | .epic => 2
  | .legendary => 1

/-- Model of `prize.type === 'MONEY' ? prize.name : prize.product_name || prize.name`. -/
def cellName (p : Prize) : String :=
  if p.type = "MONEY" then p.name
  else
    match p.product_name with
    | some s => if s = "" then p.name else s
    | none => p.name

/-- The cell's stored value string:
`prize.type === 'MONEY' ? prize.value : prize.redemption_value || '0'`. -/
def cellValueStr (p : Prize) : JStr :=
  if p.type = "MONEY" then p.value else redemptionOr0 p.redemption_value

/-- The value the expander feeds to `getRarityFromValue`:
`parseFloat(prize.value || prize.redemption_value || '0')`. -/
def effValue (p : Prize) : JStr :=
  valueChain p.value p.redemption_value

/-- The `image` field of a cell:
`fixImageUrl(prize.image_url) || '/50_money.webp'`. -/
def cellImage (p : Prize) : String :=
  let u := fixImageUrl p.image_url
  if u = "" then "/50_money.webp" else u

/-- The cells one prize contributes (the inner `for` loop pushing
`repetitions` items).  There is no `is_active` test anywhere in the
source's `generateRouletteItems`. -/
def prizeCells (p : Prize) : List RouletteItem :=
  let rarity := getRarityFromValue (parseFloatS (effValue p))
  (List.range (repetitionsFor rarity)).map fun i =>
    { id := p.id ++ "-" ++ toString i
      name := cellName p
      image := cellImage p
      value := cellValueStr p
      type := p.type
      isWinning := false
      rarity := rarity }

/-- The `prizes.forEach(... items.push ...)` accumulation of
`generateRouletteItems`, before the final random `sort`. -/
def generateRouletteItemsBase (prizes : List Prize) : List RouletteItem :=
  (prizes.map prizeCells).flatten

/-- Model of `generateRouletteItems` with the random comparator sort abstracted as
an injected `shuffle` function (JS `Array.sort` with any comparator is a
permutation of the array). -/
def generateRouletteItems (shuffle : List RouletteItem → List RouletteItem)
    (prizes : List Prize) : List RouletteItem :=
  shuffle (generateRouletteItemsBase prizes)

/-! ## Outcome reconciler -/

/-- The predicate of the winner branch's `items.find(...)`:
`item.type === result.prize?.type &&
 parseFloat(item.value) === parseFloat(result.prize?.value ||
   result.prize?.redemption_value || '0')`. -/
def winMatch (rp : GamePrize) (it : RouletteItem) : Bool :=
  decide (it.type = rp.type) &&
    jsEqNum (parseFloatS it.value)
      (parseFloatS (valueChain rp.value rp.redemption_value))

/-- The winner branch: `items.find(winMatch) || null`, followed (when
found) by the in-place mutation `targetItem.isWinning = true`.  Returns
the array after the mutation together with the (mutated) found cell. -/
def markFirstMatch (rp : GamePrize) :
    List RouletteItem → List RouletteItem × Option RouletteItem
  | [] => ([], none)
  | it :: rest =>
    if winMatch rp it then
      let w : RouletteItem := { it with isWinning := true }
      (w :: rest, some w)
    else
      let out := markFirstMatch rp rest
      (it :: out.1, out.2)

/-- The loser branch:
`commonItems[Math.floor(Math.random() * commonItems.length)] || items[0]`,
with the random draw injected as the index `k` (JS guarantees
`k < commonItems.length` whenever that length is positive; an out-of-range
index yields `undefined` and falls through to `items[0]`, exactly as
modelled by `getElem?`). -/
def pickLossTarget (items : List RouletteItem) (k : Nat) : Option RouletteItem :=
  let commonItems := items.filter fun it => decide (it.rarity = Rarity.common)
  match commonItems[k]? with
  | some it => some it
  | none => items[0]?

/-! ## Modelled-from-spec comparators (refinement only)

These two definitions follow the SPEC's words, not the source; they exist
only to compare the source's matching rule against the specified one. -/

/-- Modelled from the spec: the category-appropriate effective value of a
result prize — "monetary value for `MONEY`, redemption value otherwise;
treat missing/unparseable values as 0". -/
def specGamePrizeEffectiveValue (rp : GamePrize) : ℚ :=
  (parseFloatS (if rp.type = "MONEY" then rp.value
                else (rp.redemption_value).getD .empty)).getD 0

/-- Modelled from the spec: the category-appropriate effective value of a
catalog prize — "monetary value for `MONEY`, redemption value otherwise;
treat missing/unparseable values as 0". -/
def specPrizeEffectiveValue (p : Prize) : ℚ :=
  (parseFloatS (if p.type = "MONEY" then p.value
                else (p.redemption_value).getD .empty)).getD 0

/-- Modelled from the spec: "cell whose category and numeric value exactly
match the prize's category/value (using the category-appropriate value
field)". -/
def specCategoryAppropriateMatch (rp : GamePrize) (it : RouletteItem) : Bool :=
  decide (it.type = rp.type) &&
    jsEqNum (parseFloatS it.value) (some (specGamePrizeEffectiveValue rp))

/-! ## Spin scheduler / state machine -/

/-- The pending `setTimeout` created by `startRouletteSpin`.  `captured`
is the `gameResult` binding the timeout callback closed over: the value
the state variable had in the render that created the running handler,
i.e. the value from *before* this spin's `setGameResult`. -/
structure TimerTask where
  duration : Nat
  captured : Option GameResult
deriving DecidableEq

/-- The component's `useState` store (the fields the core reads/writes). -/
structure Config where
  gameState : GameState
  rouletteItems : List RouletteItem
  showConfetti : Bool
  hasWon : Bool
  totalWinnings : JsNum
  gameResult : Option GameResult
  winningItem : Option RouletteItem
  playingGame : Bool
  isSpinning : Bool
  spinDuration : Nat
  finalRotation : Int
  pendingTimer : Option TimerTask
deriving DecidableEq

/-- The initial store of a fresh session. -/
def initialConfig : Config :=
  { gameState := .idle
    rouletteItems := []
    showConfetti := false
    hasWon := false
    totalWinnings := some 0
    gameResult := none
    winningItem := none
    playingGame := false
    isSpinning := false
    spinDuration := 0
    finalRotation := 0
    pendingTimer := none }

/-- Externally observable side effects emitted by a step. -/
inductive Effect where
  | playRequest
  | toastError (msg : String)
  | refreshBalance
  | confettiOffTimer (ms : Nat)
deriving DecidableEq

/-- Outcome of the play fetch as seen by `handleOpenBox`: either a
non-null result object or an error message (`data.message` on a business
error, the fixed connection-error text on a thrown fetch). -/
inductive PlayOutcome where
  | ok (result : GameResult)
  | err (message : String)
deriving DecidableEq

/-- Environment of one click: auth/catalog inputs, the network outcome,
and the two injected random sources. -/
structure SpinEnv where
  isAuthenticated : Bool
  scratchCardData : Option (List Prize)
  hasId : Bool
  token : Option String
  network : PlayOutcome
  shuffle : List RouletteItem → List RouletteItem
  lossRand : Nat

/-- Model of `playGame`: returns early (no fetch) when `id` or the auth token is
missing/empty, otherwise performs exactly one play request and yields the
network outcome. -/
def playGame (hasId : Bool) (authToken : String) (net : PlayOutcome) :
    PlayOutcome × List Effect :=
  if hasId = false || authToken = "" then
    (.err "Dados de autenticação ausentes.", [])
  else
    (net, [Effect.playRequest])

/-- Model of `startRouletteSpin(targetItem, items)`: guard
`if (!targetItem || items.length === 0) return;`, then compute the target
offset `3 * N * 120 + i * 120 - 500 / 2 + 120 / 2` (with `i = -1` when
`findIndex` misses), set the fixed 4000 ms duration and schedule the
reveal timeout, whose callback captures `snapshot` (the render-time
`gameResult`). -/
def startRouletteSpin (snapshot : Option GameResult)
    (target : Option RouletteItem) (items : List RouletteItem)
    (cfg : Config) : Config :=
  match target with
  | none => cfg
  | some t =>
    if items.length = 0 then cfg
    else
      let targetIndex : Int :=
        match items.findIdx? (fun it => decide (it.id = t.id)) with
        | some n => (n : Int)
        | none => -1
      let itemWidth : Int := 120
      let containerWidth : Int := 500
      let totalWidth : Int := (items.length : Int) * itemWidth
      let finalPosition : Int :=
        targetIndex * itemWidth - containerWidth / 2 + itemWidth / 2
      let fullRotations : Int := 3
      let rotation : Int := fullRotations * totalWidth + finalPosition
      let duration : Nat := 4000
      { cfg with
          isSpinning := true
          finalRotation := rotation
          spinDuration := duration
          pendingTimer := some { duration := duration, captured := snapshot } }

/-- The body of `handleOpenBox` after its guard, as one atomic step.
`snapshot` is the render-time value of the `gameResult` state variable
(the binding every closure created during this run captures — state
setters called during the run do not change it). -/
def handleOpenBoxCore (env : SpinEnv) (snapshot : Option GameResult)
    (cfg : Config) : Config × List Effect :=
  if (env.isAuthenticated = false) || cfg.playingGame ||
      env.scratchCardData.isNone then (cfg, [])
  else
    match env.scratchCardData with
    | none => (cfg, [])
    | some prizes =>
      let cfg1 : Config :=
        { cfg with
            gameState := .loading
            showConfetti := false
            hasWon := false
            totalWinnings := some 0
            gameResult := none
            winningItem := none }
      let pg := playGame env.hasId ((env.token).getD "") env.network
      match pg.1 with
      | .ok result =>
        let cfg2 : Config := { cfg1 with gameResult := some result }
        let items := env.shuffle (generateRouletteItemsBase prizes)
        let reconciled : List RouletteItem × Option RouletteItem ×
            Option RouletteItem :=
          if result.isWinner then
            match result.prize with
            | some rp =>
              let m := markFirstMatch rp items
              (m.1, m.2, m.2)
            | none => (items, pickLossTarget items env.lossRand, none)
          else (items, pickLossTarget items env.lossRand, none)
        let cfg3 : Config :=
          { cfg2 with
              rouletteItems := reconciled.1
              winningItem := reconciled.2.2
              gameState := .spinning }
        (startRouletteSpin snapshot reconciled.2.1 reconciled.1 cfg3, pg.2)
      | .err msg =>
        ({ cfg1 with gameState := .idle },
         pg.2 ++ [Effect.toastError
           (if msg = "" then "Erro ao abrir a box. Tente novamente." else msg)])

/-- Model of `handleOpenBox` as invoked from the idle-state button: the render-time
`gameResult` the closures capture is the store's current value. -/
def handleOpenBox (env : SpinEnv) (cfg : Config) : Config × List Effect :=
  handleOpenBoxCore env cfg.gameResult cfg

/-- Model of `handlePlayAgain`: same guard, reset of all per-spin derived state,
then `handleOpenBox`.  The invoked `handleOpenBox` is the one defined in
the render active at click time, so its closures capture the *pre-reset*
`gameResult`. -/
def handlePlayAgain (env : SpinEnv) (cfg : Config) : Config × List Effect :=
  if (env.isAuthenticated = false) || cfg.playingGame ||
      env.scratchCardData.isNone then (cfg, [])
  else
    let snapshot := cfg.gameResult
    let cfg1 : Config :=
      { cfg with
          rouletteItems := []
          showConfetti := false
          hasWon := false
          totalWinnings := some 0
          gameResult := none
          winningItem := none
          isSpinning := false
          finalRotation := 0 }
    handleOpenBoxCore env snapshot cfg1

/-- The user events the page can emit (clicks on game buttons). -/
inductive UserEvent where
  | openBoxClick
  | playAgainClick
deriving DecidableEq

/-- Whether `result?.prize?.type === 'PRODUCT'`. -/
def resultPrizeIsProduct : Option GameResult → Bool
  | some r =>
    match r.prize with
    | some p => decide (p.type = "PRODUCT")
    | none => false
  | none => false

/-- Which game buttons the JSX renders: the open-box button only inside
the `gameState === 'idle'` block; the play-again button only inside the
`gameState === 'completed'` block, and there only when not
(`hasWon && gameResult?.prize?.type === 'PRODUCT'`) — in that case the
inventory-navigation button renders instead.  No game handler is wired to
anything during `loading` or `spinning`. -/
def buttonRendered (cfg : Config) : UserEvent → Bool
  | .openBoxClick => decide (cfg.gameState = GameState.idle)
  | .playAgainClick =>
    decide (cfg.gameState = GameState.completed) &&
      !(cfg.hasWon && resultPrizeIsProduct cfg.gameResult)

/-- One user-driven step: a click reaches a handler only if the JSX
renders the corresponding button in the current state. -/
def userStep (env : SpinEnv) (e : UserEvent) (cfg : Config) :
    Config × List Effect :=
  if buttonRendered cfg e then
    match e with
    | .openBoxClick => handleOpenBox env cfg
    | .playAgainClick => handlePlayAgain env cfg
  else (cfg, [])

/-- The reveal timeout firing: leave `spinning`, enter `completed`, and
reveal using the `gameResult` binding the callback captured — the
render-time (pre-spin) value stored in `TimerTask.captured`, not the
store's current value. -/
def timerFire (cfg : Config) : Config × List Effect :=
  match cfg.pendingTimer with
  | none => (cfg, [])
  | some task =>
    let cfg1 : Config :=
      { cfg with isSpinning := false, gameState := .completed,
                 pendingTimer := none }
    let stepped : Config × List Effect :=
      match task.captured with
      | some r =>
        if r.isWinner then
          ({ cfg1 with
               hasWon := true
               totalWinnings := parseFloatS r.amountWon
               showConfetti := true },
           [Effect.confettiOffTimer 5000])
        else (cfg1, [])
      | none => (cfg1, [])
    (stepped.1, stepped.2 ++ [Effect.refreshBalance])

/-! ## Concrete inputs for scenarios, counterexamples and witnesses -/

/-- A template catalog prize (MONEY, value 0, active). -/
def basePrize : Prize :=
  { id := "p"
    scratchCardId := "sc"
    name := "Premio"
    description := ""
    type := "MONEY"
    value := .numeric 0
    product_name := none
    redemption_value := none
    image_url := ""
    probability := .numeric 1
    is_active := true
    created_at := ""
    updated_at := "" }

/-- A MONEY prize of value 5 (common tier). -/
def prizeMoney5 : Prize := { basePrize with id := "p5", value := .numeric 5 }

/-- A MONEY prize of value 1500 (legendary tier). -/
def prizeMoney1500 : Prize :=
  { basePrize with id := "p1500", value := .numeric 1500 }

/-- A PRODUCT prize whose monetary `value` field holds the truthy string
`"5"` while its redemption value is `"1500"`; inactive. -/
def prizeProductOdd : Prize :=
  { basePrize with
      id := "pprod"
      type := "PRODUCT"
      value := .numeric 5
      product_name := some "Fone"
      redemption_value := some (.numeric 1500)
      is_active := false }

/-- Scratch-card echo used by the example results. -/
def exScratchCardRef : ScratchCardRef :=
  { id := "sc", name := "Box", price := .numeric 10, image_url := "" }

/-- Result prize: MONEY, value 1500. -/
def gpMoney1500 : GamePrize :=
  { id := "p1500", name := "Premio", type := "MONEY", value := .numeric 1500
    product_name := none, redemption_value := none, image_url := "" }

/-- Result prize: MONEY, value 2500 (absent from every example catalog). -/
def gpMoney2500 : GamePrize :=
  { id := "p2500", name := "Premio", type := "MONEY", value := .numeric 2500
    product_name := none, redemption_value := none, image_url := "" }

/-- Result prize: PRODUCT whose `value` field is the truthy string `"0"`
and whose redemption value is `"1500"`. -/
def gpProductOdd : GamePrize :=
  { id := "pprod", name := "Premio", type := "PRODUCT", value := .numeric 0
    product_name := some "Fone", redemption_value := some (.numeric 1500)
    image_url := "" }

/-- Winning result for the MONEY-1500 prize, amount won `"1500"`. -/
def resultWin1500 : GameResult :=
  { isWinner := true, amountWon := .numeric 1500, prize := some gpMoney1500
    scratchCard := exScratchCardRef }

/-- Winning result for a MONEY-2500 prize (degraded match on a
value-5-only catalog). -/
def resultWin2500 : GameResult :=
  { isWinner := true, amountWon := .numeric 2500, prize := some gpMoney2500
    scratchCard := exScratchCardRef }

/-- A losing result. -/
def resultLoss : GameResult :=
  { isWinner := false, amountWon := .numeric 0, prize := none
    scratchCard := exScratchCardRef }

/-- Environment template: authenticated, id and token present, identity
shuffle, loss draw 0. -/
def baseEnv : SpinEnv :=
  { isAuthenticated := true
    scratchCardData := some []
    hasId := true
    token := some "tok"
    network := .err ""
    shuffle := id
    lossRand := 0 }

/-- Environment of end-to-end scenario 2: catalog `[{MONEY, 1500}]`,
winning result for that prize. -/
def scenario2Env : SpinEnv :=
  { baseEnv with
      scratchCardData := some [prizeMoney1500]
      network := .ok resultWin1500 }

/-- Environment of end-to-end scenario 3 (degraded match): catalog
`[{MONEY, 5}]`, winning result for a MONEY-2500 prize. -/
def scenario3Env : SpinEnv :=
  { baseEnv with
      scratchCardData := some [prizeMoney5]
      network := .ok resultWin2500 }

/-- Environment of a losing spin on the catalog `[{MONEY, 5}]`. -/
def lossEnv : SpinEnv :=
  { baseEnv with
      scratchCardData := some [prizeMoney5]
      network := .ok resultLoss }

/-- Environment of a failing play request. -/
def failEnv : SpinEnv :=
  { baseEnv with
      scratchCardData := some [prizeMoney5]
      network := .err "Saldo insuficiente" }

/-- The reel expanded from the odd PRODUCT prize (used against
`gpProductOdd`). -/
def oddReel : List RouletteItem := generateRouletteItemsBase [prizeProductOdd]

/-- A store in the `spinning` state with the reveal timer of a losing
spin pending. -/
def spinningCfg : Config :=
  { initialConfig with
      gameState := .spinning
      isSpinning := true
      spinDuration := 4000
      pendingTimer := some { duration := 4000, captured := none } }

/-! ## Helper lemmas -/

theorem prizeCells_length (p : Prize) :
    (prizeCells p).length
      = repetitionsFor (getRarityFromValue (parseFloatS (effValue p))) := by
  simp [prizeCells]

theorem length_generateRouletteItemsBase (prizes : List Prize) :
    (generateRouletteItemsBase prizes).length
      = (prizes.map fun p =>
          repetitionsFor (getRarityFromValue (parseFloatS (effValue p)))).sum := by
  have hfun : (List.length ∘ prizeCells)
      = fun p : Prize =>
          repetitionsFor (getRarityFromValue (parseFloatS (effValue p))) := by
    funext p
    simp [Function.comp, prizeCells_length]
  simp only [generateRouletteItemsBase, List.length_flatten, List.map_map, hfun]

theorem mem_generateRouletteItemsBase {it : RouletteItem} {prizes : List Prize} :
    it ∈ generateRouletteItemsBase prizes ↔ ∃ p ∈ prizes, it ∈ prizeCells p := by
  simp [generateRouletteItemsBase, List.mem_flatten]

theorem prizeCells_isWinning {p : Prize} {it : RouletteItem}
    (h : it ∈ prizeCells p) : it.isWinning = false := by
  simp only [prizeCells, List.mem_map, List.mem_range] at h
  obtain ⟨i, _, rfl⟩ := h
  rfl

theorem prizeCells_rarity {p : Prize} {it : RouletteItem}
    (h : it ∈ prizeCells p) :
    it.rarity = getRarityFromValue (parseFloatS (effValue p)) := by
  simp only [prizeCells, List.mem_map, List.mem_range] at h
  obtain ⟨i, _, rfl⟩ := h
  rfl

theorem prizeCells_type {p : Prize} {it : RouletteItem}
    (h : it ∈ prizeCells p) : it.type = p.type := by
  simp only [prizeCells, List.mem_map, List.mem_range] at h
  obtain ⟨i, _, rfl⟩ := h
  rfl

theorem prizeCells_length_pos (p : Prize) : 0 < (prizeCells p).length := by
  simp only [prizeCells, List.length_map, List.length_range]
  cases getRarityFromValue (parseFloatS (effValue p)) <;> simp [repetitionsFor]

theorem markFirstMatch_snd (rp : GamePrize) (items : List RouletteItem) :
    (markFirstMatch rp items).2
      = (items.find? (winMatch rp)).map fun it => { it with isWinning := true } := by
  induction items with
  | nil => rfl
  | cons it rest ih =>
    cases hw : winMatch rp it <;>
      simp [markFirstMatch, hw, List.find?_cons, ih]

theorem startRouletteSpin_preserves (snapshot : Option GameResult)
    (target : Option RouletteItem) (items : List RouletteItem) (cfg : Config) :
    (startRouletteSpin snapshot target items cfg).winningItem = cfg.winningItem
    ∧ (startRouletteSpin snapshot target items cfg).rouletteItems = cfg.rouletteItems
    ∧ (startRouletteSpin snapshot target items cfg).gameState = cfg.gameState := by
  rcases target with _ | t
  · exact ⟨rfl, rfl, rfl⟩
  · unfold startRouletteSpin
    by_cases h : items.length = 0 <;> simp [h]

/-! ## Claim C7 -/

/-- C7: the rarity function maps `v ≥ 1000` to legendary, `100 ≤ v < 1000`
to epic, `10 ≤ v < 100` to rare and `v < 10` to common, with the boundary
values 1000, 100 and 10 each mapping to the higher tier. -/
theorem rarity_threshold_tiers :
    (∀ v : ℚ, 1000 ≤ v → getRarityFromValue (some v) = .legendary)
    ∧ (∀ v : ℚ, 100 ≤ v → v < 1000 → getRarityFromValue (some v) = .epic)
    ∧ (∀ v : ℚ, 10 ≤ v → v < 100 → getRarityFromValue (some v) = .rare)
    ∧ (∀ v : ℚ, v < 10 → getRarityFromValue (some v) = .common)
    ∧ getRarityFromValue (some 1000) = .legendary
    ∧ getRarityFromValue (some 100) = .epic
    ∧ getRarityFromValue (some 10) = .rare := by
  refine ⟨?_, ?_, ?_, ?_, by decide, by decide, by decide⟩
  · intro v h
    simp [getRarityFromValue, jsGe, h]
  · intro v h1 h2
    simp [getRarityFromValue, jsGe, h1, not_le.mpr h2]
  · intro v h1 h2
    simp [getRarityFromValue, jsGe, h1, not_le.mpr h2,
      not_le.mpr (lt_of_lt_of_le h2 (by norm_num : (100:ℚ) ≤ 1000))]
  · intro v h
    simp [getRarityFromValue, jsGe, not_le.mpr h,
      not_le.mpr (lt_of_lt_of_le h (by norm_num : (10:ℚ) ≤ 100)),
      not_le.mpr (lt_of_lt_of_le h (by norm_num : (10:ℚ) ≤ 1000))]

/-- Witness for C7 at concrete values. -/
theorem rarity_threshold_tiers_witness :
    getRarityFromValue (some 2000) = .legendary
    ∧ getRarityFromValue (some 500) = .epic
    ∧ getRarityFromValue (some 50) = .rare
    ∧ getRarityFromValue (some 5) = .common :=
  ⟨rarity_threshold_tiers.1 2000 (by norm_num),
   rarity_threshold_tiers.2.1 500 (by norm_num) (by norm_num),
   rarity_threshold_tiers.2.2.1 50 (by norm_num) (by norm_num),
   rarity_threshold_tiers.2.2.2.1 5 (by norm_num)⟩

/-! ## Claim C5 -/

theorem prizeCells_id_nodup (p : Prize) :
    ((prizeCells p).map fun it => it.id).Nodup := by
  have hmm : ((prizeCells p).map fun it => it.id)
      = (((List.range (repetitionsFor
            (getRarityFromValue (parseFloatS (effValue p))))).map
          toString).map fun t => p.id ++ "-" ++ t) := by
    simp [prizeCells, List.map_map]
  rw [hmm]
  refine List.Nodup.map (fun a b h => ?_) ?_
  · have h1 := congrArg String.data h
    simp only [String.data_append, List.append_assoc] at h1
    have h2 := List.append_cancel_left h1
    have h3 := List.append_cancel_left h2
    exact String.ext h3
  · cases getRarityFromValue (parseFloatS (effValue p)) <;> decide

/-- C5: each prize is repeated into distinct cells per the fixed table
common→8, rare→4, epic→2, legendary→1 (the reel length is the sum of the
per-prize repetition counts, and one prize's cells carry pairwise distinct
ids); a catalog of one common and one legendary prize expands — under any
permutation the random sort produces — to exactly 9 cells. -/
theorem expansion_repetition_table :
    (∀ prizes : List Prize,
       (generateRouletteItemsBase prizes).length
         = (prizes.map fun p =>
             repetitionsFor (getRarityFromValue (parseFloatS (effValue p)))).sum)
    ∧ repetitionsFor .common = 8 ∧ repetitionsFor .rare = 4
    ∧ repetitionsFor .epic = 2 ∧ repetitionsFor .legendary = 1
    ∧ (∀ p : Prize, ((prizeCells p).map fun it => it.id).Nodup)
    ∧ (∀ shuffle : List RouletteItem → List RouletteItem,
        (∀ l, (shuffle l).Perm l) →
        (generateRouletteItems shuffle [prizeMoney5, prizeMoney1500]).length = 9) := by
  refine ⟨length_generateRouletteItemsBase, rfl, rfl, rfl, rfl,
    prizeCells_id_nodup, fun shuffle hperm => ?_⟩
  have h1 : (generateRouletteItems shuffle [prizeMoney5, prizeMoney1500]).length
      = (generateRouletteItemsBase [prizeMoney5, prizeMoney1500]).length :=
    (hperm (generateRouletteItemsBase [prizeMoney5, prizeMoney1500])).length_eq
  rw [h1]
  decide

/-- Witness for C5: the identity permutation realizes the 9-cell
expansion. -/
theorem expansion_repetition_table_witness :
    (generateRouletteItems id [prizeMoney5, prizeMoney1500]).length = 9 :=
  expansion_repetition_table.2.2.2.2.2.2 id (fun l => List.Perm.refl l)

/-! ## Claim C4 -/

/-- C4 counterexample: an inactive PRODUCT prize whose monetary `value`
field holds the truthy string `"5"` and whose redemption value is
`"1500"`.  The claim says only active prizes yield cells (so this catalog
would yield an empty reel) and that rarity comes from the
category-appropriate effective value (1500 → legendary).  The code
generates 8 cells for the inactive prize, all of rarity common, because
it computes rarity from `parseFloat(value || redemption_value || '0') = 5`. -/
theorem expander_ignores_active_flag_counterexample :
    prizeProductOdd.is_active = false
    ∧ (generateRouletteItemsBase [prizeProductOdd]).length = 8
    ∧ (∀ it ∈ generateRouletteItemsBase [prizeProductOdd],
        it.rarity = Rarity.common)
    ∧ getRarityFromValue (some (specPrizeEffectiveValue prizeProductOdd))
        = Rarity.legendary := by decide

/-- C4 (amended): the expander generates cells for every catalog prize
regardless of its `is_active` flag; each cell's rarity is computed from
`parseFloat(prize.value || prize.redemption_value || '0')` (the monetary
value field whenever it is a non-empty string, otherwise the redemption
value, otherwise 0; an unparseable value gives `NaN`, which lands in
common just like 0); an empty catalog yields an empty reel without
erroring.  (An all-inactive catalog yields a non-empty reel.) -/
theorem expander_all_prizes_rarity_and_empty :
    (∀ (prizes : List Prize) (p : Prize), p ∈ prizes →
       ∃ it, it ∈ generateRouletteItemsBase prizes
         ∧ it.rarity = getRarityFromValue (parseFloatS (effValue p))
         ∧ it.type = p.type)
    ∧ (∀ (p : Prize) (it : RouletteItem), it ∈ prizeCells p →
        it.rarity = getRarityFromValue (parseFloatS (effValue p)))
    ∧ generateRouletteItemsBase [] = [] := by
  refine ⟨fun prizes p hp => ?_, fun p it h => prizeCells_rarity h, rfl⟩
  obtain ⟨it, hit⟩ := List.exists_mem_of_length_pos (prizeCells_length_pos p)
  exact ⟨it, mem_generateRouletteItemsBase.mpr ⟨p, hp, hit⟩,
    prizeCells_rarity hit, prizeCells_type hit⟩

/-- Witness for C4 (amended) at the inactive odd PRODUCT prize. -/
theorem expander_all_prizes_rarity_and_empty_witness :
    ∃ it, it ∈ generateRouletteItemsBase [prizeProductOdd]
      ∧ it.rarity = getRarityFromValue (parseFloatS (effValue prizeProductOdd))
      ∧ it.type = prizeProductOdd.type :=
  expander_all_prizes_rarity_and_empty.1 [prizeProductOdd] prizeProductOdd
    (by decide)

/-! ## Claim C2 -/

/-- C2 counterexample: the result prize is a PRODUCT whose `value` field
is the truthy string `"0"` and whose redemption value is `"1500"`.  The
reel expanded from the matching catalog prize contains cells whose
category (PRODUCT) and category-appropriate numeric value (1500) exactly
equal the prize's, yet the code's `find` — which compares against
`parseFloat(prize.value || prize.redemption_value || '0') = 0` — finds no
match, so reconciliation returns `null` instead of the first
spec-matching cell. -/
theorem reconcile_not_category_appropriate_counterexample :
    (∃ it ∈ oddReel, specCategoryAppropriateMatch gpProductOdd it = true)
    ∧ oddReel.find? (winMatch gpProductOdd) = none
    ∧ (markFirstMatch gpProductOdd oddReel).2 = none := by decide

/-- C2 (amended): with the prize's numeric value taken as
`parseFloat(prize.value || prize.redemption_value || '0')` (not the
category-appropriate field), whenever at least one reel cell has the
prize's category and that numeric value, reconciliation returns the first
such cell, marks it as the landing cell, and the landing cell's category
equals the prize's while its parsed value equals that number. -/
theorem reconcile_first_code_match (rp : GamePrize) (items : List RouletteItem)
    (h : ∃ it ∈ items, winMatch rp it = true) :
    ∃ it, items.find? (winMatch rp) = some it
      ∧ (markFirstMatch rp items).2 = some { it with isWinning := true }
      ∧ it.type = rp.type
      ∧ jsEqNum (parseFloatS it.value)
          (parseFloatS (valueChain rp.value rp.redemption_value)) = true := by
  have hs : (items.find? (winMatch rp)).isSome := List.find?_isSome.mpr h
  obtain ⟨it, hit⟩ := Option.isSome_iff_exists.mp hs
  have hw := List.find?_some hit
  unfold winMatch at hw
  rw [Bool.and_eq_true] at hw
  refine ⟨it, hit, ?_, of_decide_eq_true hw.1, hw.2⟩
  rw [markFirstMatch_snd, hit]
  rfl

/-- Witness for C2 (amended): the MONEY-1500 winning prize on the reel
expanded from the MONEY-1500 catalog prize. -/
theorem reconcile_first_code_match_witness :
    ∃ it, (generateRouletteItemsBase [prizeMoney1500]).find?
            (winMatch gpMoney1500) = some it
      ∧ (markFirstMatch gpMoney1500
          (generateRouletteItemsBase [prizeMoney1500])).2
          = some { it with isWinning := true }
      ∧ it.type = gpMoney1500.type
      ∧ jsEqNum (parseFloatS it.value)
          (parseFloatS (valueChain gpMoney1500.value
            gpMoney1500.redemption_value)) = true :=
  reconcile_first_code_match gpMoney1500
    (generateRouletteItemsBase [prizeMoney1500]) (by decide)

/-! ## Claim C6 -/

/-- C6: on a losing result the reconciler picks the `k`-th common cell
(`k` is the injected uniform draw, in range whenever any common cell
exists), so the returned cell has rarity common and lies on the reel; if
no common cell exists it falls back to the first cell of the reel. -/
theorem loss_pick_common_or_first (items : List RouletteItem) (k : Nat) :
    (k < (items.filter fun it => decide (it.rarity = Rarity.common)).length →
       ∃ it, pickLossTarget items k = some it
         ∧ it.rarity = Rarity.common ∧ it ∈ items
         ∧ (items.filter fun it => decide (it.rarity = Rarity.common))[k]?
             = some it)
    ∧ ((items.filter fun it => decide (it.rarity = Rarity.common)) = [] →
        pickLossTarget items k = items[0]?) := by
  constructor
  · intro hk
    have hit : (items.filter fun it => decide (it.rarity = Rarity.common))[k]?
        = some ((items.filter fun it => decide (it.rarity = Rarity.common))[k]) :=
      List.getElem?_eq_getElem hk
    have hmemf : (items.filter fun it => decide (it.rarity = Rarity.common))[k]
        ∈ items.filter fun it => decide (it.rarity = Rarity.common) :=
      List.getElem_mem hk
    refine ⟨_, ?_, ?_, List.mem_of_mem_filter hmemf, hit⟩
    · simp only [pickLossTarget, hit]
    · exact of_decide_eq_true (List.mem_filter.mp hmemf).2
  · intro hnil
    simp [pickLossTarget, hnil]

/-- Witness for C6 on the 8-common-cell reel of the value-5 catalog. -/
theorem loss_pick_common_or_first_witness :
    ∃ it, pickLossTarget (generateRouletteItemsBase [prizeMoney5]) 0 = some it
      ∧ it.rarity = Rarity.common
      ∧ it ∈ generateRouletteItemsBase [prizeMoney5]
      ∧ ((generateRouletteItemsBase [prizeMoney5]).filter
          fun it => decide (it.rarity = Rarity.common))[0]? = some it :=
  (loss_pick_common_or_first (generateRouletteItemsBase [prizeMoney5]) 0).1
    (by decide)

/-! ## Claim C8 -/

/-- C8: while the state is `spinning` no user click reaches a game
handler (the JSX renders neither game button), so no click changes the
store or emits any effect — in particular no play request starts; the
pending reveal timer is the only exit from `spinning`, and its firing
moves the state to `completed`. -/
theorem spinning_blocks_user_actions :
    (∀ (env : SpinEnv) (e : UserEvent) (cfg : Config),
       cfg.gameState = GameState.spinning → userStep env e cfg = (cfg, []))
    ∧ (∀ (cfg : Config) (task : TimerTask), cfg.pendingTimer = some task →
        ((timerFire cfg).1).gameState = GameState.completed) := by
  constructor
  · intro env e cfg h
    have hb : buttonRendered cfg e = false := by
      cases e <;> simp [buttonRendered, h]
    simp [userStep, hb]
  · intro cfg task h
    simp only [timerFire, h]
    rcases task.captured with _ | r
    · rfl
    · by_cases hw : r.isWinner <;> simp [hw]

/-- Witness for C8 at a concrete spinning store. -/
theorem spinning_blocks_user_actions_witness :
    userStep scenario2Env UserEvent.openBoxClick spinningCfg
      = (spinningCfg, [])
    ∧ ((timerFire spinningCfg).1).gameState = GameState.completed :=
  ⟨spinning_blocks_user_actions.1 scenario2Env UserEvent.openBoxClick
      spinningCfg rfl,
   spinning_blocks_user_actions.2 spinningCfg
      { duration := 4000, captured := none } rfl⟩

/-! ## Claim C9 -/

/-- C9: when the play request fails (locally or as a returned business
error), `handleOpenBox` transitions back to `idle`, surfaces the error as
a toast (falling back to the default text when the message is empty), and
no spin occurs — no reveal timer is scheduled, the reel is not
regenerated, and all per-spin win data (result, landing cell, win flag,
winnings) is left cleared. -/
theorem play_failure_returns_to_idle (env : SpinEnv) (cfg : Config)
    (prizes : List Prize) (msg : String)
    (hauth : env.isAuthenticated = true)
    (hplay : cfg.playingGame = false)
    (hcat : env.scratchCardData = some prizes)
    (hnet : (playGame env.hasId ((env.token).getD "") env.network).1
              = PlayOutcome.err msg) :
    (handleOpenBox env cfg).1.gameState = GameState.idle
    ∧ Effect.toastError
        (if msg = "" then "Erro ao abrir a box. Tente novamente." else msg)
        ∈ (handleOpenBox env cfg).2
    ∧ (handleOpenBox env cfg).1.gameResult = none
    ∧ (handleOpenBox env cfg).1.winningItem = none
    ∧ (handleOpenBox env cfg).1.hasWon = false
    ∧ (handleOpenBox env cfg).1.totalWinnings = some 0
    ∧ (handleOpenBox env cfg).1.rouletteItems = cfg.rouletteItems
    ∧ (handleOpenBox env cfg).1.pendingTimer = cfg.pendingTimer
    ∧ (handleOpenBox env cfg).1.isSpinning = cfg.isSpinning := by
  simp only [handleOpenBox, handleOpenBoxCore, hauth, hplay, hcat, hnet,
    Option.isNone_some, decide_True, decide_False, Bool.false_or,
    Bool.or_false, Bool.or_self, if_false, Bool.false_eq_true]
  simp [List.mem_append]

/-- Witness for C9 at a concrete failing environment. -/
theorem play_failure_returns_to_idle_witness :
    (handleOpenBox failEnv initialConfig).1.gameState = GameState.idle
    ∧ Effect.toastError
        (if "Saldo insuficiente" = ""
         then "Erro ao abrir a box. Tente novamente."
         else "Saldo insuficiente")
        ∈ (handleOpenBox failEnv initialConfig).2
    ∧ (handleOpenBox failEnv initialConfig).1.gameResult = none
    ∧ (handleOpenBox failEnv initialConfig).1.winningItem = none
    ∧ (handleOpenBox failEnv initialConfig).1.hasWon = false
    ∧ (handleOpenBox failEnv initialConfig).1.totalWinnings = some 0
    ∧ (handleOpenBox failEnv initialConfig).1.rouletteItems
        = initialConfig.rouletteItems
    ∧ (handleOpenBox failEnv initialConfig).1.pendingTimer
        = initialConfig.pendingTimer
    ∧ (handleOpenBox failEnv initialConfig).1.isSpinning
        = initialConfig.isSpinning :=
  play_failure_returns_to_idle failEnv initialConfig [prizeMoney5]
    "Saldo insuficiente" rfl rfl rfl rfl

/-! ## Claim C10 -/

/-- C10: freshly expanded cells all carry an unset winning flag, and on a
losing result neither the `isWinning` flag of any reel cell is set nor a
winning item recorded: the flag is assigned only in the winner branch. -/
theorem loss_never_marks_winning (env : SpinEnv) (snapshot : Option GameResult)
    (cfg : Config) (prizes : List Prize) (r : GameResult)
    (hperm : ∀ l, (env.shuffle l).Perm l)
    (hauth : env.isAuthenticated = true)
    (hplay : cfg.playingGame = false)
    (hcat : env.scratchCardData = some prizes)
    (hnet : (playGame env.hasId ((env.token).getD "") env.network).1
              = PlayOutcome.ok r)
    (hlose : r.isWinner = false) :
    (∀ (qs : List Prize) (it : RouletteItem),
        it ∈ generateRouletteItemsBase qs → it.isWinning = false)
    ∧ (handleOpenBoxCore env snapshot cfg).1.winningItem = none
    ∧ ∀ it ∈ (handleOpenBoxCore env snapshot cfg).1.rouletteItems,
        it.isWinning = false := by
  have hfresh : ∀ (qs : List Prize) (it : RouletteItem),
      it ∈ generateRouletteItemsBase qs → it.isWinning = false := by
    intro qs it h
    obtain ⟨p, _, hit⟩ := mem_generateRouletteItemsBase.mp h
    exact prizeCells_isWinning hit
  refine ⟨hfresh, ?_, ?_⟩
  · simp only [handleOpenBoxCore, hauth, hplay, hcat, hnet, hlose,
      Option.isNone_some, decide_True, decide_False, Bool.false_or,
      Bool.or_false, Bool.or_self, if_false, Bool.false_eq_true,
      Bool.true_eq_false]
    rw [(startRouletteSpin_preserves _ _ _ _).1]
  · simp only [handleOpenBoxCore, hauth, hplay, hcat, hnet, hlose,
      Option.isNone_some, decide_True, decide_False, Bool.false_or,
      Bool.or_false, Bool.or_self, if_false, Bool.false_eq_true,
      Bool.true_eq_false]
    rw [(startRouletteSpin_preserves _ _ _ _).2.1]
    intro it h
    exact hfresh prizes it
      ((hperm (generateRouletteItemsBase prizes)).mem_iff.mp h)

/-- Witness for C10 at a concrete losing spin. -/
theorem loss_never_marks_winning_witness :
    (∀ (qs : List Prize) (it : RouletteItem),
        it ∈ generateRouletteItemsBase qs → it.isWinning = false)
    ∧ (handleOpenBoxCore lossEnv none initialConfig).1.winningItem = none
    ∧ ∀ it ∈ (handleOpenBoxCore lossEnv none initialConfig).1.rouletteItems,
        it.isWinning = false :=
  loss_never_marks_winning lossEnv none initialConfig [prizeMoney5] resultLoss
    (fun l => List.Perm.refl l) rfl rfl rfl rfl rfl

/-! ## Claim C1 -/

/-- C1 (code bug, end-to-end scenario 2): on a fresh session with catalog
`[{MONEY, 1500}]` and the winning result `{isWinner:true, amountWon:"1500",
prize:{MONEY,1500}}`, the click enters `spinning` with the landing cell
found and the fixed 4000 ms reveal timer scheduled — but the timer's
callback captured the pre-spin `gameResult` binding (`none` on a fresh
session), so when it fires the state is `completed` with the win flag
still `false` and displayed total winnings 0 instead of `true` / 1500. -/
theorem scenario2_reveal_uses_stale_result :
    ((userStep scenario2Env UserEvent.openBoxClick initialConfig).1.gameState
       = GameState.spinning)
    ∧ ((userStep scenario2Env UserEvent.openBoxClick initialConfig).1.pendingTimer
       = some { duration := 4000, captured := none })
    ∧ ((userStep scenario2Env UserEvent.openBoxClick
          initialConfig).1.winningItem).isSome = true
    ∧ ((userStep scenario2Env UserEvent.openBoxClick initialConfig).1.gameResult
       = some resultWin1500)
    ∧ resultWin1500.isWinner = true
    ∧ parseFloatS resultWin1500.amountWon = some 1500
    ∧ ((timerFire (userStep scenario2Env UserEvent.openBoxClick
          initialConfig).1).1.gameState = GameState.completed)
    ∧ ((timerFire (userStep scenario2Env UserEvent.openBoxClick
          initialConfig).1).1.hasWon = false)
    ∧ ((timerFire (userStep scenario2Env UserEvent.openBoxClick
          initialConfig).1).1.totalWinnings = some 0) := by decide

/-! ## Claim C3 -/

/-- C3 (code bug, end-to-end scenario 3): with catalog `[{MONEY, 5}]` and
the winning result for a MONEY-2500 prize, no reel cell matches, no
fallback fires: the state is set to `spinning`, `startRouletteSpin`
returns immediately on the `null` target, no reveal timer is scheduled
(the spin never completes), no landing cell exists and no cell is marked
— the spin silently proceeds with no landing cell. -/
theorem degraded_match_silently_proceeds :
    ((userStep scenario3Env UserEvent.openBoxClick initialConfig).1.gameState
       = GameState.spinning)
    ∧ ((userStep scenario3Env UserEvent.openBoxClick initialConfig).1.winningItem
       = none)
    ∧ ((userStep scenario3Env UserEvent.openBoxClick initialConfig).1.pendingTimer
       = none)
    ∧ ((userStep scenario3Env UserEvent.openBoxClick initialConfig).1.isSpinning
       = false)
    ∧ ((userStep scenario3Env UserEvent.openBoxClick initialConfig).1.rouletteItems
       ≠ [])
    ∧ (∀ it ∈ (userStep scenario3Env UserEvent.openBoxClick
          initialConfig).1.rouletteItems, it.isWinning = false) := by decide
